import Mathlib

/-!
Shallow embedding of the supply-chain analytics pipeline from
`supply_chain_analysis.py` and `supply_chain_visualizations.py`.

Tables are lists of rows, numeric columns are rationals, and the two
division semantics that occur in the scripts are modelled explicitly:
plain Python division of scalars (which raises `ZeroDivisionError` on a
zero divisor) and numpy/pandas float division (which yields `inf`,
`-inf` or `NaN` on a zero divisor).  Pandas `.round(2)` is modelled as
rounding to two decimals with ties going to the even hundredth.
`sort_values`, `nlargest`, `nsmallest` and the sorted group keys of
`groupby` are modelled with a stable insertion sort.  For `nlargest`
and `nsmallest` this is the documented behaviour (`keep='first'`); for
`sort_values` the source's default quicksort leaves the tie order
unspecified, so the stable model is one admissible refinement and no
general theorem relies on its tie order.
-/

namespace SupplyChain

/-- Nearest integer with ties to even, used by numpy/pandas rounding. -/
def roundHalfEven (q : ℚ) : ℤ :=
  if q - (q.floor : ℚ) = 1/2 then (if q.floor % 2 = 0 then q.floor else q.floor + 1)
  else (q + 1/2).floor

/-- Rounding to two decimal places, the `.round(2)` of the scripts. -/
def round2 (q : ℚ) : ℚ := (roundHalfEven (q * 100) : ℚ) / 100

/-- Errors raised by plain Python arithmetic. -/
inductive PyErr where
  | zeroDivisionError
deriving DecidableEq

/-- Plain Python division of two numbers: raises `ZeroDivisionError`
when the divisor is zero (as in `on_time_orders / total_orders`). -/
def pydiv (a b : ℚ) : Except PyErr ℚ :=
  if b = 0 then .error .zeroDivisionError else .ok (a / b)

/-- A numpy/pandas floating value: a finite rational, an infinity, or `NaN`. -/
inductive PFloat where
  | val (q : ℚ)
  | inf
  | negInf
  | nan
deriving DecidableEq

/-- numpy float division: a zero divisor yields `inf`, `-inf` or `NaN`
(with a warning, suppressed in the scripts) instead of raising. -/
def npdiv (a b : ℚ) : PFloat :=
  if b = 0 then (if a = 0 then .nan else if 0 < a then .inf else .negInf)
  else .val (a / b)

/-- Pandas `.round(2)` on a float column: finite values are rounded, `inf` and
`NaN` pass through. -/
def PFloat.round2 : PFloat → PFloat
  | .val q => .val (SupplyChain.round2 q)
  | .inf => .inf
  | .negInf => .negInf
  | .nan => .nan

/-- Multiplying a float by 100, as in the `* 100` on growth rates. -/
def PFloat.mul100 : PFloat → PFloat
  | .val q => .val (q * 100)
  | .inf => .inf
  | .negInf => .negInf
  | .nan => .nan

/-- pandas `mean` of a float column: `NaN` on an empty column,
otherwise the arithmetic mean. -/
def pmean (xs : List ℚ) : PFloat :=
  if xs.length = 0 then .nan else .val (xs.sum / xs.length)

/-- One row of `orders_data.csv`.  Dates are day numbers; the actual
delivery date may be missing (`NaT`). -/
structure Order where
  Order_ID : ℕ
  Order_Date : ℤ
  Expected_Delivery : ℤ
  Actual_Delivery : Option ℤ
  On_Time_Delivery : String
  Warehouse : String
  Category : String
  Total_Value : ℚ
deriving DecidableEq

/-- One row of `inventory_data.csv`. -/
structure InventoryItem where
  Product : String
  Warehouse : String
  Category : String
  Current_Stock : ℚ
  Reorder_Point : ℚ
  Avg_Monthly_Demand : ℚ
  Days_of_Inventory : ℚ
  Stock_Status : String
deriving DecidableEq

/-- One row of `supplier_performance.csv`. -/
structure Supplier where
  Name : String
  Category : String
  On_Time_Delivery_Rate : ℚ
  Quality_Score : ℚ
  Defect_Rate_Percent : ℚ
  Total_Orders : ℚ
deriving DecidableEq

/-- One row of `shipping_costs.csv`. -/
structure Shipment where
  Shipping_ID : ℕ
  Order_ID : ℕ
  Carrier : String
  Shipping_Method : String
  Shipping_Cost : ℚ
  Distance_KM : ℚ
  Weight_KG : ℚ
deriving DecidableEq

/-! ### Section 2 of the script: order fulfillment -/

/-- Source line `total_orders = len(orders_df)`. -/
def total_orders (df : List Order) : ℕ := df.length

/-- Source line `on_time_orders = len(orders_df[orders_df['On_Time_Delivery'] == 'Yes'])`. -/
def on_time_orders (df : List Order) : ℕ :=
  (df.filter (fun o => o.On_Time_Delivery = "Yes")).length

/-- Source line `on_time_rate = (on_time_orders / total_orders) * 100`, a plain
Python division of two `len` results. -/
def on_time_rate (df : List Order) : Except PyErr ℚ :=
  (pydiv (on_time_orders df) (total_orders df)).map (· * 100)

/-- Derived column `Delivery_Time_Days = Actual_Delivery - Order_Date`
(in days; missing when the actual delivery date is missing). -/
def Delivery_Time_Days (o : Order) : Option ℤ :=
  o.Actual_Delivery.map (fun d => d - o.Order_Date)

/-- The distinct group keys produced by `groupby('Warehouse')`: pandas
lists them sorted (`sort=True` is the default). -/
def warehouseKeys (df : List Order) : List String :=
  List.insertionSort (fun a b => a ≤ b) ((df.map (fun o => o.Warehouse)).dedup)

/-- The rows of one `groupby('Warehouse')` group. -/
def warehouseGroup (df : List Order) (w : String) : List Order :=
  df.filter (fun o => o.Warehouse = w)

/-- One aggregated row of `warehouse_performance`: order count, on-time
rate, total value and mean delivery time, each `.round(2)`-ed. -/
structure WRow where
  Warehouse : String
  Total_Orders : ℕ
  On_Time_Rate : ℚ
  Total_Revenue : ℚ
  Avg_Delivery_Days : PFloat
deriving DecidableEq

/-- The aggregation body of `warehouse_performance` for one warehouse:
`count`, `(x == 'Yes').sum() / len(x) * 100`, `sum`, `mean`, rounded. -/
def warehouseRow (df : List Order) (w : String) : WRow :=
  let g := warehouseGroup df w
  { Warehouse := w
    Total_Orders := g.length
    On_Time_Rate :=
      round2 (((g.filter (fun o => o.On_Time_Delivery = "Yes")).length : ℚ) / g.length * 100)
    Total_Revenue := round2 ((g.map (fun o => o.Total_Value)).sum)
    Avg_Delivery_Days :=
      PFloat.round2 (pmean ((g.filterMap Delivery_Time_Days).map (fun d => (d : ℚ)))) }

/-- Table `warehouse_performance`: the per-warehouse aggregation followed by
`sort_values('On_Time_Rate_%', ascending=False)`.  The source uses the
default quicksort, whose order among equal rates is unspecified; an
executable model must fix one tie order, and this one is stable.  No
general theorem below relies on that choice — only on the permutation
and descending-rate properties every admissible sort output has. -/
def warehouse_performance (df : List Order) : List WRow :=
  List.insertionSort (fun a b => b.On_Time_Rate ≤ a.On_Time_Rate)
    ((warehouseKeys df).map (warehouseRow df))

/-! ### Section 3 of the script: inventory -/

/-- Sorted distinct keys of `inventory_df.groupby('Category')`. -/
def categoryKeys (inv : List InventoryItem) : List String :=
  List.insertionSort (fun a b => a ≤ b) ((inv.map (fun i => i.Category)).dedup)

/-- The rows of one `groupby('Category')` group. -/
def categoryGroup (inv : List InventoryItem) (c : String) : List InventoryItem :=
  inv.filter (fun i => i.Category = c)

/-- Aggregated column `Current_Stock: 'sum'` of `inventory_summary`,
rounded to two decimals by the `.round(2)` on the frame. -/
def catStock (inv : List InventoryItem) (c : String) : ℚ :=
  round2 (((categoryGroup inv c).map (fun i => i.Current_Stock)).sum)

/-- Aggregated column `Avg_Monthly_Demand: 'sum'` of `inventory_summary`,
rounded to two decimals. -/
def catDemand (inv : List InventoryItem) (c : String) : ℚ :=
  round2 (((categoryGroup inv c).map (fun i => i.Avg_Monthly_Demand)).sum)

/-- Derived column of `inventory_summary`:
`(Avg_Monthly_Demand * 12 / Current_Stock).round(2)`, a pandas float
division of the already-rounded aggregate columns. -/
def turnoverByCategory (inv : List InventoryItem) (c : String) : PFloat :=
  PFloat.round2 (npdiv (catDemand inv c * 12) (catStock inv c))

/-! ### Section 4 of the script: supplier performance -/

/-- Derived column `Performance_Score` of `supplier_df` (analysis
script, lines 140-144): weighted sum rounded to two decimals. -/
def Performance_Score (s : Supplier) : ℚ :=
  round2 (s.On_Time_Delivery_Rate * 0.4 + s.Quality_Score * 0.4 - s.Defect_Rate_Percent * 2)

/-- The supplier table ranked as `nlargest` ranks it: performance score
descending, ties kept in original row order (`keep='first'`). -/
def rankedDesc (df : List Supplier) : List Supplier :=
  List.insertionSort (fun a b => Performance_Score b ≤ Performance_Score a) df

/-- The supplier table ranked ascending, as `nsmallest` ranks it. -/
def rankedAsc (df : List Supplier) : List Supplier :=
  List.insertionSort (fun a b => Performance_Score a ≤ Performance_Score b) df

/-- Source line `top_suppliers = supplier_df.nlargest(5, 'Performance_Score')`. -/
def top_suppliers (df : List Supplier) : List Supplier :=
  (rankedDesc df).take 5

/-- Source line `bottom_suppliers = supplier_df.nsmallest(3, 'Performance_Score')`. -/
def bottom_suppliers (df : List Supplier) : List Supplier :=
  (rankedAsc df).take 3

/-! ### Section 5 of the script: cost analysis -/

/-- Source line `orders_with_shipping = orders_df.merge(shipping_df, on='Order_ID')`:
an inner join, ordered by the left frame's keys. -/
def orders_with_shipping (os : List Order) (sh : List Shipment) : List (Order × Shipment) :=
  os.flatMap (fun o => (sh.filter (fun s => s.Order_ID = o.Order_ID)).map (fun s => (o, s)))

/-- Source line `total_order_value = orders_df['Total_Value'].sum()`, over the full
unjoined order table. -/
def total_order_value (os : List Order) : ℚ := (os.map (fun o => o.Total_Value)).sum

/-- Source line `total_shipping_cost = shipping_df['Shipping_Cost'].sum()`, over the
full unjoined shipment table. -/
def total_shipping_cost (sh : List Shipment) : ℚ := (sh.map (fun s => s.Shipping_Cost)).sum

/-- Source expression `(total_shipping_cost/total_order_value)*100`, a numpy float division. -/
def shipping_pct_of_value (os : List Order) (sh : List Shipment) : PFloat :=
  PFloat.mul100 (npdiv (total_shipping_cost sh) (total_order_value os))

/-- The shipping costs in ascending order, the order statistics used by
`Series.quantile`. -/
def sortedCosts (sh : List Shipment) : List ℚ :=
  List.insertionSort (fun a b => a ≤ b) (sh.map (fun s => s.Shipping_Cost))

/-- Source expression `shipping_df['Shipping_Cost'].quantile(0.90)` with the pandas default
linear interpolation between order statistics: with sorted values
`x 0, ..., x (n-1)` and `h = 0.9 * (n-1)`, the result is
`x ⌊h⌋ + (h - ⌊h⌋) * (x (⌊h⌋+1) - x ⌊h⌋)`. -/
def high_cost_threshold (sh : List Shipment) : ℚ :=
  let xs := sortedCosts sh
  let h : ℚ := 9/10 * ((xs.length : ℚ) - 1)
  let i : ℕ := (⌊h⌋).toNat
  let x0 := xs.getD i 0
  let x1 := xs.getD (i + 1) x0
  x0 + (h - i) * (x1 - x0)

/-- Table `high_cost_shipments`: joined rows whose `Shipping_Cost` strictly
exceeds the 90th-percentile threshold. -/
def high_cost_shipments (os : List Order) (sh : List Shipment) : List (Order × Shipment) :=
  (orders_with_shipping os sh).filter (fun r => high_cost_threshold sh < r.2.Shipping_Cost)

/-- Source expression `high_cost_shipments['Shipping_Cost'].sum() * 0.15`, the projected
savings figure. -/
def potential_savings (os : List Order) (sh : List Shipment) : ℚ :=
  ((high_cost_shipments os sh).map (fun r => r.2.Shipping_Cost)).sum * 0.15

/-! ### Section 6 of the script: monthly trends -/

/-- Civil-calendar conversion from a day number (days since 1970-01-01)
to (year, month), modelling what `.dt.to_period('M')` extracts from a
timestamp. -/
def civilFromDays (z0 : ℤ) : ℤ × ℤ :=
  let z := z0 + 719468
  let era : ℤ := (if 0 ≤ z then z else z - 146096) / 146097
  let doe : ℤ := z - era * 146097
  let yoe : ℤ := (doe - doe / 1460 + doe / 36524 - doe / 146096) / 365
  let y : ℤ := yoe + era * 400
  let doy : ℤ := doe - (365 * yoe + yoe / 4 - yoe / 100)
  let mp : ℤ := (5 * doy + 2) / 153
  let m : ℤ := mp + (if mp < 10 then 3 else -9)
  (y + (if m ≤ 2 then 1 else 0), m)

/-- The month bucket `Year_Month = Order_Date.dt.to_period('M')`,
encoded as a month index so that the natural order of buckets is
chronological. -/
def toPeriodM (day : ℤ) : ℤ :=
  let ym := civilFromDays day
  ym.1 * 12 + (ym.2 - 1)

/-- Sorted distinct keys of `orders_df.groupby('Year_Month')`. -/
def monthKeys (df : List Order) : List ℤ :=
  List.insertionSort (fun a b => a ≤ b) ((df.map (fun o => toPeriodM o.Order_Date)).dedup)

/-- The rows of one `groupby('Year_Month')` group. -/
def monthGroup (df : List Order) (k : ℤ) : List Order :=
  df.filter (fun o => toPeriodM o.Order_Date = k)

/-- One row of `monthly_trends`: order count, revenue sum and on-time
rate for one month bucket, `.round(2)`-ed. -/
structure TrendRow where
  Year_Month : ℤ
  Orders : ℕ
  Revenue : ℚ
  On_Time_Rate : ℚ
deriving DecidableEq

/-- The aggregation body of `monthly_trends` for one month bucket. -/
def trendRow (df : List Order) (k : ℤ) : TrendRow :=
  let g := monthGroup df k
  { Year_Month := k
    Orders := g.length
    Revenue := round2 ((g.map (fun o => o.Total_Value)).sum)
    On_Time_Rate :=
      round2 (((g.filter (fun o => o.On_Time_Delivery = "Yes")).length : ℚ) / g.length * 100) }

/-- Table `monthly_trends`: one aggregated row per month bucket, in
chronological bucket order. -/
def monthly_trends (df : List Order) : List TrendRow :=
  (monthKeys df).map (trendRow df)

/-- pandas `Series.pct_change()`: `NaN` for the first entry, then
`(current - previous) / previous` (a numpy float division) row by row. -/
def pct_change (xs : List ℚ) : List PFloat :=
  match xs with
  | [] => []
  | _ :: rest => .nan :: List.zipWith (fun prev cur => npdiv (cur - prev) prev) xs rest

/-- Source line `monthly_trends['Order_Growth_%'] = monthly_trends['Orders'].pct_change() * 100`. -/
def order_growth (df : List Order) : List PFloat :=
  (pct_change ((monthly_trends df).map (fun r => (r.Orders : ℚ)))).map PFloat.mul100

/-- Source line `monthly_trends['Revenue_Growth_%'] = monthly_trends['Revenue'].pct_change() * 100`. -/
def revenue_growth (df : List Order) : List PFloat :=
  (pct_change ((monthly_trends df).map (fun r => r.Revenue))).map PFloat.mul100

/-! ### The visualization script -/

/-- Derived column `Performance_Score` as computed independently in
`supply_chain_visualizations.py`, lines 25-29. -/
def Performance_Score_viz (s : Supplier) : ℚ :=
  round2 (s.On_Time_Delivery_Rate * 0.4 + s.Quality_Score * 0.4 - s.Defect_Rate_Percent * 2)

/-! ### Example tables used by witnesses and counterexamples -/

/-- Ten example orders, eight of them flagged on time. -/
def exOrders10 : List Order :=
  [⟨1, 0, 3, some 2, "Yes", "W1", "C", 100⟩,
   ⟨2, 0, 3, some 3, "Yes", "W1", "C", 110⟩,
   ⟨3, 1, 4, some 3, "Yes", "W1", "C", 120⟩,
   ⟨4, 1, 4, some 4, "Yes", "W2", "C", 130⟩,
   ⟨5, 2, 5, some 4, "Yes", "W2", "C", 140⟩,
   ⟨6, 2, 5, some 5, "Yes", "W2", "C", 150⟩,
   ⟨7, 3, 6, some 5, "Yes", "W2", "C", 160⟩,
   ⟨8, 3, 6, some 6, "Yes", "W2", "C", 170⟩,
   ⟨9, 4, 7, some 9, "No", "W1", "C", 180⟩,
   ⟨10, 4, 7, some 8, "No", "W2", "C", 190⟩]

/-- Two inventory rows: category `A` has stock 7 and demand 1, category
`B` has zero stock and positive demand. -/
def exInv : List InventoryItem :=
  [⟨"P1", "W1", "A", 7, 2, 1, 30, "Normal"⟩,
   ⟨"P2", "W1", "B", 0, 2, 5, 0, "Low Stock"⟩]

/-- Ten example orders with identifiers 1..10 for the join. -/
def exOrdersJoin : List Order :=
  (List.range 10).map (fun i => ⟨i + 1, 0, 3, some 2, "Yes", "W1", "C", 100⟩)

/-- Ten example shipments with costs 10, 20, ..., 100, matching the
reference example in the specification. -/
def exShips10 : List Shipment :=
  (List.range 10).map (fun i => ⟨i + 1, i + 1, "C1", "Ground", ((i : ℚ) + 1) * 10, 100, 5⟩)

/-- One order and one shipment whose `Order_ID` matches no order. -/
def exOrder1 : List Order := [⟨1, 0, 3, some 2, "Yes", "W1", "C", 100⟩]

/-- The category name used by the C6 examples. -/
def catA : String := "A"

/-- The zero-stock category name used by the C6 examples. -/
def catB : String := "B"

/-- A shipment referencing the non-existent order 2. -/
def exShipNoMatch : Shipment := ⟨1, 2, "C1", "Air", 50, 100, 5⟩

/-- Two on-time orders whose warehouses first occur in the order `B`, `A`
and have identical on-time rates. -/
def cOrders : List Order :=
  [⟨1, 0, 3, some 2, "Yes", "B", "C", 100⟩,
   ⟨2, 0, 3, some 2, "Yes", "A", "C", 100⟩]

/-- A supplier named `A` with score 72.0. -/
def cSupA : Supplier := ⟨"A", "C", 90, 95, 1, 100⟩

/-- A supplier named `B` with the same statistics, hence the same score. -/
def cSupB : Supplier := ⟨"B", "C", 90, 95, 1, 100⟩

/-- Eight suppliers with pairwise distinct performance scores. -/
def exSup8 : List Supplier :=
  [⟨"S1", "C", 10, 0, 0, 1⟩, ⟨"S2", "C", 20, 0, 0, 1⟩,
   ⟨"S3", "C", 30, 0, 0, 1⟩, ⟨"S4", "C", 40, 0, 0, 1⟩,
   ⟨"S5", "C", 50, 0, 0, 1⟩, ⟨"S6", "C", 60, 0, 0, 1⟩,
   ⟨"S7", "C", 70, 0, 0, 1⟩, ⟨"S8", "C", 80, 0, 0, 1⟩]

/-- Eight suppliers with identical statistics; each score is the rounded
0.44, although the raw weighted formula gives 0.444. -/
def exTied8 : List Supplier :=
  [⟨"A", "C", 1.11, 0, 0, 1⟩, ⟨"B", "C", 1.11, 0, 0, 1⟩,
   ⟨"C", "C", 1.11, 0, 0, 1⟩, ⟨"D", "C", 1.11, 0, 0, 1⟩,
   ⟨"E", "C", 1.11, 0, 0, 1⟩, ⟨"F", "C", 1.11, 0, 0, 1⟩,
   ⟨"G", "C", 1.11, 0, 0, 1⟩, ⟨"H", "C", 1.11, 0, 0, 1⟩]

/-- The first of the eight tied suppliers. -/
def tiedA : Supplier := ⟨"A", "C", 1.11, 0, 0, 1⟩

/-- Three orders in two month buckets: one order of value 100 in January
1970, two orders of total value 300 in February 1970. -/
def exTrendOrders : List Order :=
  [⟨1, 0, 3, some 2, "Yes", "W1", "C", 100⟩,
   ⟨2, 35, 38, some 37, "Yes", "W1", "C", 120⟩,
   ⟨3, 36, 39, some 40, "No", "W1", "C", 180⟩]

/-- Junk default row used with `List.getD` on the trend table. -/
def dTrend : TrendRow := ⟨0, 0, 0, 0⟩

/-! ### Helper lemmas about the stable sort -/

/-- Inserting `x` with the descending-by-key comparator commutes with
filtering one key class: `x` lands in front of its class because every
element it passes over has a strictly larger key. -/
theorem filter_orderedInsert_byKey {α K : Type} [LinearOrder K] (key : α → K) (v : K)
    (x : α) (s : List α) :
    (s.orderedInsert (fun a b => key b ≤ key a) x).filter (fun a => key a = v) =
      if key x = v then x :: s.filter (fun a => key a = v)
      else s.filter (fun a => key a = v) := by
  induction s with
  | nil => by_cases h : key x = v <;> simp [List.orderedInsert, h]
  | cons b bs ih =>
    rw [List.orderedInsert]
    by_cases hxb : key b ≤ key x
    · rw [if_pos hxb]
      by_cases h : key x = v <;> simp [List.filter_cons, h]
    · rw [if_neg hxb]
      push_neg at hxb
      by_cases h : key x = v
      · have hb : ¬(key b = v) := fun hbv => absurd (h.trans hbv.symm) (ne_of_lt hxb)
        simp [List.filter_cons, h, hb, ih]
      · by_cases hb : key b = v <;> simp [List.filter_cons, h, hb, ih]

/-- Stability of the descending sort: each key class keeps its original
relative order. -/
theorem filter_insertionSort_byKey {α K : Type} [LinearOrder K] (key : α → K) (v : K)
    (l : List α) :
    (List.insertionSort (fun a b => key b ≤ key a) l).filter (fun a => key a = v) =
      l.filter (fun a => key a = v) := by
  induction l with
  | nil => rfl
  | cons x xs ih =>
    rw [List.insertionSort, filter_orderedInsert_byKey, ih]
    by_cases h : key x = v <;> simp [List.filter_cons, h]

/-- The descending insertion sort is sorted for its own comparator. -/
theorem sorted_byKey_desc {α K : Type} [LinearOrder K] (key : α → K) (l : List α) :
    (List.insertionSort (fun a b => key b ≤ key a) l).Pairwise
      (fun a b => key b ≤ key a) := by
  haveI : IsTotal α (fun a b => key b ≤ key a) := ⟨fun a b => le_total (key b) (key a)⟩
  haveI : IsTrans α (fun a b => key b ≤ key a) :=
    ⟨fun a b c hab hbc => le_trans hbc hab⟩
  exact List.sorted_insertionSort _ l

/-- The ascending insertion sort is sorted for its own comparator. -/
theorem sorted_byKey_asc {α K : Type} [LinearOrder K] (key : α → K) (l : List α) :
    (List.insertionSort (fun a b => key a ≤ key b) l).Pairwise
      (fun a b => key a ≤ key b) := by
  haveI : IsTotal α (fun a b => key a ≤ key b) := ⟨fun a b => le_total (key a) (key b)⟩
  haveI : IsTrans α (fun a b => key a ≤ key b) :=
    ⟨fun a b c hab hbc => le_trans hab hbc⟩
  exact List.sorted_insertionSort _ l

/-- Sorted deduplicated keys are strictly increasing. -/
theorem sortedKeys_strict {K : Type} [LinearOrder K] [DecidableEq K] (l : List K) :
    (List.insertionSort (fun a b => a ≤ b) l.dedup).Pairwise (fun a b => a < b) := by
  have hsorted : (List.insertionSort (fun a b : K => a ≤ b) l.dedup).Pairwise
      (fun a b => a ≤ b) := by
    haveI : IsTotal K (fun a b : K => a ≤ b) := ⟨le_total⟩
    haveI : IsTrans K (fun a b : K => a ≤ b) := ⟨fun a b c => le_trans⟩
    exact List.sorted_insertionSort _ _
  have hnd : (List.insertionSort (fun a b : K => a ≤ b) l.dedup).Pairwise
      (fun a b => a ≠ b) :=
    ((List.perm_insertionSort _ _).nodup_iff).mpr (List.nodup_dedup l)
  exact (hsorted.and hnd).imp (fun h => lt_of_le_of_ne h.1 h.2)

/-! ### Claim theorems -/

/-- Claim C1: for every non-empty order table, the on-time delivery rate
computed by the fulfillment step equals 100 × (orders flagged yes) /
(total orders), and any rate it returns lies in [0, 100]. -/
theorem c1_on_time_rate (df : List Order) (h : df ≠ []) :
    on_time_rate df = Except.ok ((100 : ℚ) * on_time_orders df / total_orders df) ∧
    ∀ q : ℚ, on_time_rate df = Except.ok q → 0 ≤ q ∧ q ≤ 100 := by
  have h0 : total_orders df ≠ 0 := fun hc => h (List.length_eq_zero.mp hc)
  have hpos : (0 : ℚ) < (total_orders df : ℚ) := by
    exact_mod_cast Nat.pos_of_ne_zero h0
  have hn : (total_orders df : ℚ) ≠ 0 := ne_of_gt hpos
  have hle : (on_time_orders df : ℚ) ≤ (total_orders df : ℚ) := by
    exact_mod_cast List.length_filter_le _ df
  have hval : on_time_rate df =
      Except.ok ((on_time_orders df : ℚ) / (total_orders df : ℚ) * 100) := by
    simp [on_time_rate, pydiv, hn, Except.map]
  refine ⟨?_, ?_⟩
  · rw [hval]
    exact congrArg Except.ok (by ring)
  · intro q hq
    rw [hval] at hq
    injection hq with hq
    subst hq
    constructor
    · have : (0 : ℚ) ≤ (on_time_orders df : ℚ) / (total_orders df : ℚ) :=
        div_nonneg (Nat.cast_nonneg _) (Nat.cast_nonneg _)
      linarith
    · have h1 : (on_time_orders df : ℚ) / (total_orders df : ℚ) ≤ 1 :=
        (div_le_one hpos).mpr hle
      linarith

/-- Witness for C1 at the specification's example: ten orders, eight on
time. -/
theorem c1_on_time_rate_witness :
    exOrders10 ≠ [] ∧
    (on_time_rate exOrders10 =
        Except.ok ((100 : ℚ) * on_time_orders exOrders10 / total_orders exOrders10) ∧
      ∀ q : ℚ, on_time_rate exOrders10 = Except.ok q → 0 ≤ q ∧ q ≤ 100) :=
  ⟨by decide, c1_on_time_rate exOrders10 (by decide)⟩

/-- Claim C3 (code bug): on a zero-row order table the fulfillment step
evaluates the unguarded division `on_time_orders / total_orders` and
raises `ZeroDivisionError`; no explicit rejection happens first. -/
theorem c3_empty_orders_raises :
    on_time_rate ([] : List Order) = Except.error PyErr.zeroDivisionError := by
  simp [on_time_rate, pydiv, total_orders, on_time_orders, Except.map]

/-- Claim C10: the analysis script and the visualization script compute
identical `Performance_Score` values for every supplier row. -/
theorem c10_scripts_agree (s : Supplier) : Performance_Score s = Performance_Score_viz s := rfl

/-- Claim C6 (amended): the per-category turnover equals the rounded
quotient `round2((demand sum × 12) / stock sum)` of the rounded
aggregate columns, and a category with zero total stock yields a
non-finite sentinel — `inf` for positive demand, `NaN` for zero
demand — never a crash or a finite zero. -/
theorem c6_turnover (inv : List InventoryItem) (c : String) :
    (catStock inv c ≠ 0 →
      turnoverByCategory inv c = PFloat.val (round2 (catDemand inv c * 12 / catStock inv c))) ∧
    (catStock inv c = 0 →
      (∀ q : ℚ, turnoverByCategory inv c ≠ PFloat.val q) ∧
      (0 < catDemand inv c → turnoverByCategory inv c = PFloat.inf) ∧
      (catDemand inv c = 0 → turnoverByCategory inv c = PFloat.nan)) := by
  constructor
  · intro hs
    simp [turnoverByCategory, npdiv, hs, PFloat.round2]
  · intro hs
    refine ⟨?_, ?_, ?_⟩
    · intro q
      by_cases hd : catDemand inv c * 12 = 0 <;>
        by_cases hd' : 0 < catDemand inv c * 12 <;>
          simp [turnoverByCategory, npdiv, hs, hd, hd', PFloat.round2]
    · intro hd
      have : 0 < catDemand inv c * 12 := by linarith
      simp [turnoverByCategory, npdiv, hs, ne_of_gt this, this, PFloat.round2]
    · intro hd
      simp [turnoverByCategory, npdiv, hs, hd, PFloat.round2]

unseal Rat.add Rat.mul Rat.sub Rat.inv Rat.ofScientific in
/-- Counterexample to C6 as stated: for a category with stock 7 and
demand 1 the computed turnover is the rounded 1.71, not the exact
quotient 12/7 the claim asserts. -/
theorem c6_counterexample :
    turnoverByCategory exInv catA = PFloat.val (171/100) ∧
    turnoverByCategory exInv catA ≠ PFloat.val (1 * 12 / 7) := by
  decide

unseal Rat.add Rat.mul Rat.sub Rat.inv Rat.ofScientific in
/-- Witness for C6: both branches of the amended claim at the example
inventory — category `A` is a rounded finite quotient, category `B`
with zero stock and positive demand is `inf`. -/
theorem c6_turnover_witness :
    catStock exInv catA ≠ 0 ∧
    turnoverByCategory exInv catA =
      PFloat.val (round2 (catDemand exInv catA * 12 / catStock exInv catA)) ∧
    catStock exInv catB = 0 ∧ 0 < catDemand exInv catB ∧
    turnoverByCategory exInv catB = PFloat.inf :=
  ⟨by decide, (c6_turnover exInv catA).1 (by decide), by decide, by decide,
    ((c6_turnover exInv catB).2 (by decide)).2.1 (by decide)⟩

/-- Claim C7: the high-cost subset consists of exactly the joined rows
whose shipping cost strictly exceeds the 90th-percentile threshold of
all shipment costs, and the projected savings equal their summed cost
times 0.15. -/
theorem c7_high_cost (os : List Order) (sh : List Shipment) (h : sh ≠ []) :
    (∀ r : Order × Shipment,
      r ∈ high_cost_shipments os sh ↔
        r ∈ orders_with_shipping os sh ∧ high_cost_threshold sh < r.2.Shipping_Cost) ∧
    potential_savings os sh =
      ((high_cost_shipments os sh).map (fun r => r.2.Shipping_Cost)).sum * (15/100) := by
  constructor
  · intro r
    simp [high_cost_shipments, List.mem_filter]
  · show _ = _ * (15/100 : ℚ)
    norm_num [potential_savings]

unseal Rat.add Rat.mul Rat.sub Rat.inv Rat.ofScientific in
/-- Witness for C7 at the specification's reference example: costs
10, 20, ..., 100 give threshold 91 and exactly one shipment strictly
above it. -/
theorem c7_high_cost_witness :
    exShips10 ≠ [] ∧ high_cost_threshold exShips10 = 91 ∧
    (high_cost_shipments exOrdersJoin exShips10).length = 1 ∧
    ∀ r : Order × Shipment,
      r ∈ high_cost_shipments exOrdersJoin exShips10 ↔
        r ∈ orders_with_shipping exOrdersJoin exShips10 ∧
          high_cost_threshold exShips10 < r.2.Shipping_Cost :=
  ⟨by decide, by decide, by decide, (c7_high_cost exOrdersJoin exShips10 (by decide)).1⟩

/-- Claim C9: the scalar totals are taken over the full unjoined
tables — a shipment with no matching order still contributes its cost
to `total_shipping_cost`, although no joined row carries it. -/
theorem c9_unjoined_totals (os : List Order) (sh : List Shipment) (s : Shipment)
    (hs : s ∈ sh) (hno : ∀ o ∈ os, o.Order_ID ≠ s.Order_ID) :
    total_order_value os = (os.map (fun o => o.Total_Value)).sum ∧
    total_shipping_cost sh = total_shipping_cost (sh.erase s) + s.Shipping_Cost ∧
    (∀ r ∈ orders_with_shipping os sh, r.2 ≠ s) ∧
    shipping_pct_of_value os sh =
      PFloat.mul100 (npdiv (total_shipping_cost sh) (total_order_value os)) := by
  refine ⟨rfl, ?_, ?_, rfl⟩
  · have hperm : List.Perm sh (s :: sh.erase s) := List.perm_cons_erase hs
    have := (hperm.map (fun x => x.Shipping_Cost)).sum_eq
    simpa [total_shipping_cost, add_comm] using this
  · intro r hr hcontra
    rcases List.mem_flatMap.mp hr with ⟨o, ho, hro⟩
    rcases List.mem_map.mp hro with ⟨s', hs', heq⟩
    have hid : s'.Order_ID = o.Order_ID := by
      simpa using (List.mem_filter.mp hs').2
    have hss : s = s' := by
      have h2 : r.2 = s' := by rw [← heq]
      rw [← hcontra, h2]
    exact hno o ho (by rw [hss, hid])

unseal Rat.add Rat.mul Rat.sub Rat.inv Rat.ofScientific in
/-- Witness for C9: one order (id 1) and one shipment referencing the
absent order 2. -/
theorem c9_unjoined_totals_witness :
    exShipNoMatch ∈ [exShipNoMatch] ∧
    (∀ o ∈ exOrder1, o.Order_ID ≠ exShipNoMatch.Order_ID) ∧
    (total_order_value exOrder1 = ((exOrder1.map (fun o => o.Total_Value)).sum) ∧
      total_shipping_cost [exShipNoMatch] =
        total_shipping_cost (([exShipNoMatch]).erase exShipNoMatch) + exShipNoMatch.Shipping_Cost ∧
      (∀ r ∈ orders_with_shipping exOrder1 [exShipNoMatch], r.2 ≠ exShipNoMatch) ∧
      shipping_pct_of_value exOrder1 [exShipNoMatch] =
        PFloat.mul100 (npdiv (total_shipping_cost [exShipNoMatch]) (total_order_value exOrder1))) :=
  ⟨by decide, by decide,
    c9_unjoined_totals exOrder1 [exShipNoMatch] exShipNoMatch (by decide) (by decide)⟩

/-- Claim C4 (amended): the per-warehouse rollup consists of exactly one
aggregate row (order count, on-time rate, total value, average delivery
time) per distinct warehouse, ordered by on-time rate descending.  No
particular order among warehouses with equal rates is guaranteed — the
source's default quicksort leaves it unspecified — and in particular it
is not the original input order, which the grouping step has already
discarded.  Every conjunct below holds for any admissible output of the
sort, as none depends on the model's tie order. -/
theorem c4_warehouse_order (df : List Order) (hne : df ≠ []) :
    List.Perm (warehouse_performance df) ((warehouseKeys df).map (warehouseRow df)) ∧
    (∀ r ∈ warehouse_performance df, r = warehouseRow df r.Warehouse) ∧
    (warehouse_performance df).Pairwise (fun a b => b.On_Time_Rate ≤ a.On_Time_Rate) := by
  refine ⟨List.perm_insertionSort _ _, ?_, ?_⟩
  · intro r hr
    rw [warehouse_performance] at hr
    have hr' := (List.mem_insertionSort _).mp hr
    obtain ⟨k, _, hkr⟩ := List.mem_map.mp hr'
    rw [← hkr]
    rfl
  · exact sorted_byKey_desc WRow.On_Time_Rate ((warehouseKeys df).map (warehouseRow df))

unseal Rat.add Rat.mul Rat.sub Rat.inv Rat.ofScientific in
/-- Counterexample to C4 as stated: two tied warehouses whose first
occurrences in the input are ordered `B`, `A` come out ordered
`A`, `B` at this input (with two groups the sort reduces to its
insertion-sort base case), so ties are not in original input order. -/
theorem c4_counterexample :
    (cOrders.map (fun o => o.Warehouse)).dedup = ["B", "A"] ∧
    (warehouse_performance cOrders).map WRow.On_Time_Rate = [100, 100] ∧
    (warehouse_performance cOrders).map WRow.Warehouse = ["A", "B"] := by
  have hBA : ¬("B" : String) ≤ "A" := by
    have hlt : ("A" : String) < "B" := by
      simp only [String.lt_iff_toList_lt]
      decide
    exact not_le.mpr hlt
  have hkeys : warehouseKeys cOrders = ["A", "B"] := by
    unfold warehouseKeys
    rw [show (cOrders.map (fun o => o.Warehouse)).dedup = ["B", "A"] from by decide]
    simp only [List.insertionSort, List.orderedInsert]
    rw [if_neg hBA]
  refine ⟨by decide, ?_, ?_⟩
  · rw [warehouse_performance, hkeys]
    decide
  · rw [warehouse_performance, hkeys]
    decide

/-- Witness for C4 at the ten-order example table. -/
theorem c4_warehouse_order_witness :
    exOrders10 ≠ [] ∧
    (List.Perm (warehouse_performance exOrders10)
        ((warehouseKeys exOrders10).map (warehouseRow exOrders10)) ∧
      (∀ r ∈ warehouse_performance exOrders10, r = warehouseRow exOrders10 r.Warehouse) ∧
      (warehouse_performance exOrders10).Pairwise
        (fun a b => b.On_Time_Rate ≤ a.On_Time_Rate)) :=
  ⟨by decide, c4_warehouse_order exOrders10 (by decide)⟩

/-- Claim C5 (amended): `nlargest(5, 'Performance_Score')` returns rows
in descending score order, but breaks ties by original row position
(`keep='first'`), not by supplier name; every score class of the
ranking keeps the input's relative order, so the result depends on the
input order of tied rows. -/
theorem c5_top5_order (df : List Supplier) :
    top_suppliers df = (rankedDesc df).take 5 ∧
    (top_suppliers df).Pairwise
      (fun a b => Performance_Score b ≤ Performance_Score a) ∧
    ∀ v : ℚ, (rankedDesc df).filter (fun s => Performance_Score s = v) =
      df.filter (fun s => Performance_Score s = v) := by
  refine ⟨rfl, ?_, ?_⟩
  · exact List.Pairwise.sublist (List.take_sublist 5 _)
      (sorted_byKey_desc Performance_Score df)
  · intro v
    exact filter_insertionSort_byKey Performance_Score v df

unseal Rat.add Rat.mul Rat.sub Rat.inv Rat.ofScientific in
/-- Counterexample to C5 as stated: two suppliers with equal scores are
returned in input order `B`, `A` rather than ascending name order, and
swapping the two input rows changes the output, so the result is not a
function of the row contents alone. -/
theorem c5_counterexample :
    Performance_Score cSupA = Performance_Score cSupB ∧
    cSupA.Name < cSupB.Name ∧
    (top_suppliers [cSupB, cSupA]).map Supplier.Name = ["B", "A"] ∧
    (top_suppliers [cSupA, cSupB]).map Supplier.Name = ["A", "B"] := by
  refine ⟨by decide, ?_, by decide, by decide⟩
  show cSupA.Name < cSupB.Name
  simp only [String.lt_iff_toList_lt]
  decide

/-- Claim C2 (amended): every supplier's performance score is the
rounded weighted formula `round2(0.4·on_time + 0.4·quality − 2·defect)`,
and whenever at least 8 suppliers have pairwise distinct performance
scores, the independently selected top-5 and bottom-3 share no row. -/
theorem c2_top_bottom_disjoint (df : List Supplier)
    (h8 : 8 ≤ df.length)
    (hd : (df.map Performance_Score).Nodup) :
    (∀ s ∈ df, Performance_Score s =
      round2 (s.On_Time_Delivery_Rate * 0.4 + s.Quality_Score * 0.4 -
        s.Defect_Rate_Percent * 2)) ∧
    List.Disjoint (top_suppliers df) (bottom_suppliers df) := by
  refine ⟨fun s _ => rfl, ?_⟩
  have hpermD := List.perm_insertionSort
    (fun a b => Performance_Score b ≤ Performance_Score a) df
  have hpermA := List.perm_insertionSort
    (fun a b => Performance_Score a ≤ Performance_Score b) df
  have hndD : ((rankedDesc df).map Performance_Score).Nodup :=
    ((hpermD.map Performance_Score).nodup_iff).mpr hd
  have hndA : ((rankedAsc df).map Performance_Score).Nodup :=
    ((hpermA.map Performance_Score).nodup_iff).mpr hd
  have hneD : (rankedDesc df).Pairwise
      (fun a b => Performance_Score a ≠ Performance_Score b) :=
    List.pairwise_map.mp hndD
  have hneA : (rankedAsc df).Pairwise
      (fun a b => Performance_Score a ≠ Performance_Score b) :=
    List.pairwise_map.mp hndA
  have hsD : (rankedDesc df).Pairwise
      (fun a b => Performance_Score b ≤ Performance_Score a) :=
    sorted_byKey_desc Performance_Score df
  have hsA : (rankedAsc df).Pairwise
      (fun a b => Performance_Score a ≤ Performance_Score b) :=
    sorted_byKey_asc Performance_Score df
  have hstrictA : (rankedAsc df).Pairwise
      (fun a b => Performance_Score a < Performance_Score b) :=
    (hsA.and hneA).imp (fun h => lt_of_le_of_ne h.1 h.2)
  have hstrictD : (rankedDesc df).Pairwise
      (fun a b => Performance_Score b < Performance_Score a) :=
    (hsD.and hneD).imp (fun h => lt_of_le_of_ne h.1 (Ne.symm h.2))
  have hrev : (rankedDesc df).reverse.Pairwise
      (fun a b => Performance_Score a < Performance_Score b) :=
    List.pairwise_reverse.mpr hstrictD
  haveI : IsAntisymm Supplier
      (fun a b => Performance_Score a < Performance_Score b) :=
    ⟨fun _ _ h1 h2 => absurd h2 (lt_asymm h1)⟩
  have hperm2 : List.Perm (rankedAsc df) ((rankedDesc df).reverse) :=
    hpermA.trans (hpermD.symm.trans (List.reverse_perm (rankedDesc df)).symm)
  have heq : rankedAsc df = (rankedDesc df).reverse :=
    List.eq_of_perm_of_sorted hperm2 hstrictA hrev
  have hdfnd : df.Nodup := hd.of_map
  have hndDl : (rankedDesc df).Nodup := (hpermD.nodup_iff).mpr hdfnd
  have hlen : (rankedDesc df).length = df.length := hpermD.length_eq
  intro x hxTop hxBot
  have hxBot' : x ∈ (rankedDesc df).drop ((rankedDesc df).length - 3) := by
    rw [bottom_suppliers, heq, List.take_reverse, List.mem_reverse] at hxBot
    exact hxBot
  have h53 : 5 ≤ (rankedDesc df).length - 3 := by omega
  exact List.disjoint_take_drop hndDl h53 hxTop hxBot'

unseal Rat.add Rat.mul Rat.sub Rat.inv Rat.ofScientific in
/-- Counterexample to C2 as stated: eight suppliers with identical
statistics.  Each derived score is the rounded 0.44, not the raw
weighted 0.444 the claim asserts, and the tied top-5 and bottom-3
selections both contain the first supplier. -/
theorem c2_counterexample :
    8 ≤ exTied8.length ∧
    (∃ s ∈ exTied8, Performance_Score s ≠
      s.On_Time_Delivery_Rate * 0.4 + s.Quality_Score * 0.4 -
        s.Defect_Rate_Percent * 2) ∧
    tiedA ∈ top_suppliers exTied8 ∧ tiedA ∈ bottom_suppliers exTied8 := by
  decide

unseal Rat.add Rat.mul Rat.sub Rat.inv Rat.ofScientific in
/-- Witness for C2: eight suppliers with pairwise distinct scores. -/
theorem c2_top_bottom_disjoint_witness :
    8 ≤ exSup8.length ∧ (exSup8.map Performance_Score).Nodup ∧
    List.Disjoint (top_suppliers exSup8) (bottom_suppliers exSup8) :=
  ⟨by decide, by decide,
    (c2_top_bottom_disjoint exSup8 (by decide) (by decide)).2⟩

/-- The function `pct_change` preserves the length of its column. -/
theorem pct_change_length (xs : List ℚ) : (pct_change xs).length = xs.length := by
  cases xs with
  | nil => rfl
  | cons x rest =>
    simp only [pct_change, List.length_cons, List.length_zipWith]
    omega

/-- Entry `i+1` of `pct_change` is the numpy division of consecutive
entries of the column. -/
theorem pct_change_getD :
    ∀ (xs : List ℚ) (i : ℕ), i + 1 < xs.length →
      (pct_change xs).getD (i + 1) PFloat.nan =
        npdiv (xs.getD (i + 1) 0 - xs.getD i 0) (xs.getD i 0)
  | [], _, h => by simp at h
  | [_], _, h => by simp at h
  | x :: y :: rest, 0, _ => by
    simp [pct_change, List.zipWith_cons_cons, List.getD_cons_succ, List.getD_cons_zero]
  | x :: y :: rest, i + 1, h => by
    have h' : i + 1 < (y :: rest).length := by
      simp only [List.length_cons] at h ⊢
      omega
    have ih := pct_change_getD (y :: rest) i h'
    simp only [pct_change, List.zipWith_cons_cons, List.getD_cons_succ] at ih ⊢
    exact ih

/-- A `getD` at a valid index is a member of the list. -/
theorem getD_mem_of_lt {β : Type} (l : List β) (j : ℕ) (d : β) (hj : j < l.length) :
    l.getD j d ∈ l := by
  rw [List.getD_eq_getElem?_getD, List.getElem?_eq_getElem hj]
  exact List.getElem_mem hj

/-- Reading `getD` through a `map` of trend rows, at a valid index. -/
theorem getD_map_trend (m : List TrendRow) (f : TrendRow → ℚ) (j : ℕ) (hj : j < m.length) :
    (m.map f).getD j 0 = f (m.getD j dTrend) := by
  rw [List.getD_eq_getElem?_getD, List.getD_eq_getElem?_getD, List.getElem?_map,
    List.getElem?_eq_getElem hj]
  simp

/-- Reading `getD` through the `* 100` map on a growth column, at a valid index. -/
theorem getD_map_mul100 (l : List PFloat) (j : ℕ) (hj : j < l.length) :
    (l.map PFloat.mul100).getD j (PFloat.val 0) = PFloat.mul100 (l.getD j PFloat.nan) := by
  rw [List.getD_eq_getElem?_getD, List.getD_eq_getElem?_getD, List.getElem?_map,
    List.getElem?_eq_getElem hj]
  simp

/-- Every month bucket of the trend table contains at least one order. -/
theorem trendRow_orders_pos (df : List Order) (k : ℤ) (hk : k ∈ monthKeys df) :
    0 < (trendRow df k).Orders := by
  unfold monthKeys at hk
  rw [List.mem_insertionSort, List.mem_dedup] at hk
  obtain ⟨o, ho, hok⟩ := List.mem_map.mp hk
  have hmem : o ∈ monthGroup df k :=
    List.mem_filter.mpr ⟨ho, by simp [hok]⟩
  exact List.length_pos_of_mem hmem

/-- Every row of the trend table has a positive order count. -/
theorem trend_mem_orders_pos (df : List Order) (r : TrendRow)
    (hr : r ∈ monthly_trends df) : 0 < r.Orders := by
  rw [monthly_trends] at hr
  obtain ⟨k, hk, hkr⟩ := List.mem_map.mp hr
  rw [← hkr]
  exact trendRow_orders_pos df k hk

/-- Claim C8: the growth columns of the monthly trend table are `NaN`
for the first bucketed month; for every later bucket the order growth
equals (current − previous)/previous × 100 over the preceding bucket's
row (always defined since buckets are non-empty), and the revenue
growth equals the same formula whenever the previous revenue is
non-zero. -/
theorem c8_monthly_growth (df : List Order) (hne : df ≠ []) :
    (order_growth df).getD 0 (PFloat.val 0) = PFloat.nan ∧
    (revenue_growth df).getD 0 (PFloat.val 0) = PFloat.nan ∧
    ∀ i : ℕ, i + 1 < (monthly_trends df).length →
      (order_growth df).getD (i + 1) (PFloat.val 0) =
        PFloat.val
          (((((monthly_trends df).getD (i + 1) dTrend).Orders : ℚ) -
              (((monthly_trends df).getD i dTrend).Orders : ℚ)) /
            (((monthly_trends df).getD i dTrend).Orders : ℚ) * 100) ∧
      (((monthly_trends df).getD i dTrend).Revenue ≠ 0 →
        (revenue_growth df).getD (i + 1) (PFloat.val 0) =
          PFloat.val
            (((((monthly_trends df).getD (i + 1) dTrend).Revenue) -
                ((monthly_trends df).getD i dTrend).Revenue) /
              ((monthly_trends df).getD i dTrend).Revenue * 100)) := by
  have hm : monthly_trends df ≠ [] := by
    cases hdf : df with
    | nil => exact absurd hdf hne
    | cons o rest =>
      have hk : toPeriodM o.Order_Date ∈ monthKeys (o :: rest) := by
        unfold monthKeys
        rw [List.mem_insertionSort, List.mem_dedup]
        exact List.mem_map_of_mem _ (List.mem_cons_self o rest)
      exact List.ne_nil_of_mem (List.mem_map_of_mem _ hk)
  obtain ⟨t, ts, hts⟩ := List.exists_cons_of_ne_nil hm
  refine ⟨?_, ?_, ?_⟩
  · rw [order_growth, hts]
    simp [pct_change, PFloat.mul100]
  · rw [revenue_growth, hts]
    simp [pct_change, PFloat.mul100]
  · intro i hi
    have hi' : i < (monthly_trends df).length := Nat.lt_of_succ_lt hi
    constructor
    · have hpc := pct_change_getD ((monthly_trends df).map (fun r => (r.Orders : ℚ))) i
        (by simpa using hi)
      have hmul := getD_map_mul100
        (pct_change ((monthly_trends df).map (fun r => (r.Orders : ℚ)))) (i + 1)
        (by rw [pct_change_length]; simpa using hi)
      rw [order_growth, hmul, hpc,
        getD_map_trend _ _ (i + 1) hi, getD_map_trend _ _ i hi']
      have hpos : 0 < ((monthly_trends df).getD i dTrend).Orders :=
        trend_mem_orders_pos df _ (getD_mem_of_lt _ i dTrend hi')
      have hne0 : ((((monthly_trends df).getD i dTrend).Orders : ℚ)) ≠ 0 := by
        exact_mod_cast hpos.ne'
      simp only [npdiv, if_neg hne0, PFloat.mul100]
    · intro hrne
      have hpc := pct_change_getD ((monthly_trends df).map (fun r => r.Revenue)) i
        (by simpa using hi)
      have hmul := getD_map_mul100
        (pct_change ((monthly_trends df).map (fun r => r.Revenue))) (i + 1)
        (by rw [pct_change_length]; simpa using hi)
      rw [revenue_growth, hmul, hpc,
        getD_map_trend _ _ (i + 1) hi, getD_map_trend _ _ i hi']
      simp only [npdiv, if_neg hrne, PFloat.mul100]

unseal Rat.add Rat.mul Rat.sub Rat.inv Rat.ofScientific in
/-- Witness for C8: three orders in two month buckets (January and
February 1970): order growth 100%, revenue growth 200%. -/
theorem c8_monthly_growth_witness :
    exTrendOrders ≠ [] ∧ 0 + 1 < (monthly_trends exTrendOrders).length ∧
    ((monthly_trends exTrendOrders).getD 0 dTrend).Revenue ≠ 0 ∧
    (order_growth exTrendOrders).getD 0 (PFloat.val 0) = PFloat.nan ∧
    (order_growth exTrendOrders).getD (0 + 1) (PFloat.val 0) =
      PFloat.val
        (((((monthly_trends exTrendOrders).getD (0 + 1) dTrend).Orders : ℚ) -
            (((monthly_trends exTrendOrders).getD 0 dTrend).Orders : ℚ)) /
          (((monthly_trends exTrendOrders).getD 0 dTrend).Orders : ℚ) * 100) ∧
    (revenue_growth exTrendOrders).getD (0 + 1) (PFloat.val 0) =
      PFloat.val
        (((((monthly_trends exTrendOrders).getD (0 + 1) dTrend).Revenue) -
            ((monthly_trends exTrendOrders).getD 0 dTrend).Revenue) /
          ((monthly_trends exTrendOrders).getD 0 dTrend).Revenue * 100) :=
  ⟨by decide, by decide, by decide,
    (c8_monthly_growth exTrendOrders (by decide)).1,
    ((c8_monthly_growth exTrendOrders (by decide)).2.2 0 (by decide)).1,
    ((c8_monthly_growth exTrendOrders (by decide)).2.2 0 (by decide)).2 (by decide)⟩

end SupplyChain
